import Mathlib

/-
Verification development for the LightBox sample-scripts repository
(SampleScripts/BatchGeocodeSearch/batch_search.ipynb and
SampleScripts/Autocomplete/autocomplete.ipynb).

The notebooks are straight-line Python glue over a remote geocoding API.
We shallowly embed the code: JSON values become an inductive `Json` type,
a dictionary access `d[k]` becomes `Json.getField` returning `Option`
(with `none` standing for the KeyError / TypeError that aborts the run),
the network becomes an explicit `transport : Request → Response` mapping,
and the notebook functions become Lean functions over these types.
-/

/-- JSON values as parsed by `result.json()` in the notebooks.  Numbers are
modelled as rationals; the scripts never compute with them, they only copy
them from the response into the output table. -/
inductive Json where
  | null : Json
  | bool : Bool → Json
  | num : Rat → Json
  | str : String → Json
  | arr : List Json → Json
  | obj : List (String × Json) → Json

/-- Python dictionary access `d[key]`.  On a JSON object it returns the
value stored under `key`; on any other value, or when the key is absent,
Python raises (KeyError / TypeError), which we model as `none`. -/
def Json.getField (j : Json) (key : String) : Option Json :=
  match j with
  | Json.obj fields => fields.lookup key
  | _ => none

/-- Python truthiness of a JSON value, used by `if data['addresses']:`
in `batch_geocode_addresses`: empty collections, empty strings, zero and
`None`/`False` are falsy. -/
def Json.truthy (j : Json) : Bool :=
  match j with
  | Json.null => false
  | Json.bool b => b
  | Json.num q => decide (q ≠ 0)
  | Json.str s => !s.isEmpty
  | Json.arr xs => !xs.isEmpty
  | Json.obj fields => !fields.isEmpty

/-- An HTTP request as assembled by `requests.get(URL, params=params,
headers=headers)` in the notebooks. -/
structure Request where
  method : String
  url : String
  params : List (String × String)
  headers : List (String × String)
deriving DecidableEq

/-- The part of a `requests` response object the scripts consume:
`response.status_code` and the JSON body `response.json()`. -/
structure Response where
  status_code : Nat
  body : Json

/-- The request built by `geocode_address` in batch_search.ipynb:
GET BASE_URL + ENDPOINT with params `{'text': address}` and headers
`{'x-api-key': lightbox_api_key}`. -/
def searchRequest (lightbox_api_key : String) (address : String) : Request :=
  ⟨"GET", "https://api.lightboxre.com/v1" ++ "/addresses/search",
   [("text", address)], [("x-api-key", lightbox_api_key)]⟩

/-- `geocode_address` from batch_search.ipynb.  The network is passed in as
`transport`; the function issues exactly the single request `searchRequest`
and returns the transport's response.  The second component records the
requests sent during the call (always that one request, whatever the
response is: the code has no retry). -/
def geocode_address (transport : Request → Response)
    (lightbox_api_key : String) (address : String) : Response × List Request :=
  (transport (searchRequest lightbox_api_key address),
   [searchRequest lightbox_api_key address])

/-- The request built by `autocomplete_address` in autocomplete.ipynb:
GET BASE_URL + ENDPOINT with params `{'text': address, 'countryCode':
country_code}` and headers `{'x-api-key': lightbox_api_key}`. -/
def autocompleteRequest (lightbox_api_key : String) (address : String)
    (country_code : String) : Request :=
  ⟨"GET", "https://api.lightboxre.com/v1" ++ "/addresses/_autocomplete",
   [("text", address), ("countryCode", country_code)],
   [("x-api-key", lightbox_api_key)]⟩

/-- `autocomplete_address` from autocomplete.ipynb, embedded like
`geocode_address`. -/
def autocomplete_address (transport : Request → Response)
    (lightbox_api_key : String) (address : String) (country_code : String) :
    Response × List Request :=
  (transport (autocompleteRequest lightbox_api_key address country_code),
   [autocompleteRequest lightbox_api_key address country_code])

/-- One output row appended to `all_results` by `batch_geocode_addresses`:
the dict with keys address, latitude, longitude, confidence_score,
precision_code.  The address is always the input string; the other four
cells hold either values copied from the JSON response or sentinel
strings. -/
structure Row where
  address : String
  latitude : Json
  longitude : Json
  confidence_score : Json
  precision_code : Json

/-- A single quote character, used by the diagnostic f-string. -/
def singleQuote : String := String.singleton (Char.ofNat 39)

/-- The line printed by `batch_geocode_addresses` when a request does not
return status 200: `Failed to geocode address '{address}', Status Code:
{result.status_code}`. -/
def failureDiagnostic (address : String) (status_code : Nat) : String :=
  "Failed to geocode address " ++ singleQuote ++ address ++ singleQuote ++
    ", Status Code: " ++ toString status_code

/-- The field extraction performed on `first_match = data['addresses'][0]`
in `batch_geocode_addresses`:

  latitude         = first_match['location']['representativePoint']['latitude']
  longitude        = first_match['location']['representativePoint']['longitude']
  confidence_score = first_match['$metadata']['geocode']['confidence']['score']
  precision_code   = first_match['$metadata']['geocode']['precisionCode']

A missing field raises in Python (aborting the whole run), hence `none`.
The duplicated sub-chains of the source collapse to a single traversal
here; this does not change which inputs raise. -/
def extractFirstMatch (address : String) (first_match : Json) : Option Row :=
  match first_match.getField "location" with
  | none => none
  | some location =>
    match location.getField "representativePoint" with
    | none => none
    | some representativePoint =>
      match representativePoint.getField "latitude" with
      | none => none
      | some latitude =>
        match representativePoint.getField "longitude" with
        | none => none
        | some longitude =>
          match Json.getField first_match "$metadata" with
          | none => none
          | some metadata =>
            match metadata.getField "geocode" with
            | none => none
            | some geocode =>
              match geocode.getField "confidence" with
              | none => none
              | some confidence =>
                match confidence.getField "score" with
                | none => none
                | some score =>
                  match geocode.getField "precisionCode" with
                  | none => none
                  | some precision_code =>
                    some ⟨address, latitude, longitude, score, precision_code⟩

/-- The per-address body of the loop in `batch_geocode_addresses`: given
the response for `address`, produce the row appended to `all_results` and
the list of diagnostic lines printed, or `none` when the Python code would
raise.  Mirrors the source:

  if result.status_code == 200:
      data = result.json()
      if data['addresses']: ... first match ...
      else: ... "No match" row ...
  else: ... "Failed" row, print diagnostic ...

When `data['addresses']` is truthy but not a list, indexing `[0]` and the
subsequent field accesses raise in Python; that is the `none` fallthrough
of the inner match. -/
def geocodeStep (response : Response) (address : String) :
    Option (Row × List String) :=
  if response.status_code == 200 then
    match response.body.getField "addresses" with
    | none => none
    | some match_list =>
      if match_list.truthy then
        match match_list with
        | Json.arr (first_match :: _) =>
          (extractFirstMatch address first_match).map (fun row => (row, []))
        | _ => none
      else
        some (⟨address, Json.str "No match", Json.str "No match",
               Json.str "No match", Json.str "No match"⟩, [])
  else
    some (⟨address, Json.str "Failed",
           Json.str ("Status Code: " ++ toString response.status_code),
           Json.str "Failed", Json.str "Failed"⟩,
          [failureDiagnostic address response.status_code])

/-- The observable outcome of a batch run: the rows of `all_results`, the
diagnostic lines printed, and the requests sent, each in order. -/
structure BatchOutcome where
  rows : List Row
  log : List String
  requests : List Request

/-- Concatenation of two batch outcomes, componentwise and in order. -/
def BatchOutcome.append (o1 o2 : BatchOutcome) : BatchOutcome :=
  ⟨o1.rows ++ o2.rows, o1.log ++ o2.log, o1.requests ++ o2.requests⟩

/-- The inner loop `for address in batch:` of `batch_geocode_addresses`,
run over a list of addresses one at a time, strictly sequentially: each
address's request completes and its row is appended before the next
address is attempted.  Applied to the whole input list this is exactly the
unbatched one-address-at-a-time iteration.  `none` means the Python code
raised, aborting the run: no rows are returned and nothing is persisted. -/
def processSequentially (transport : Request → Response) (api_key : String) :
    List String → Option BatchOutcome
  | [] => some ⟨[], [], []⟩
  | address :: rest =>
    match geocodeStep (geocode_address transport api_key address).1 address with
    | none => none
    | some rl =>
      match processSequentially transport api_key rest with
      | none => none
      | some tail =>
        some ⟨rl.1 :: tail.rows, rl.2 ++ tail.log,
              (geocode_address transport api_key address).2 ++ tail.requests⟩

/-- The outer loop `for batch in batched_addresses:` of
`batch_geocode_addresses`: the batches are processed in order, each batch
one address at a time. -/
def processBatches (transport : Request → Response) (api_key : String) :
    List (List String) → Option BatchOutcome
  | [] => some ⟨[], [], []⟩
  | batch :: rest =>
    match processSequentially transport api_key batch with
    | none => none
    | some o1 =>
      match processBatches transport api_key rest with
      | none => none
      | some o2 => some (o1.append o2)

/-- The index sequence of Python `range(start, stop, step)` for
non-negative arguments, by its CPython semantics: yield `start` while
`start < stop`, then advance by `step`.  A zero `step` raises ValueError
in Python; here it yields the empty list and the caller guards it. -/
def pyRangeFrom (start stop step : Nat) : List Nat :=
  if _h : start < stop ∧ 1 ≤ step then
    start :: pyRangeFrom (start + step) stop step
  else
    []
  termination_by stop - start
  decreasing_by omega

/-- The batching comprehension of `batch_geocode_addresses`:
`[addresses[i:i + batch_size] for i in range(0, len(addresses), batch_size)]`,
with Python slice `addresses[i:i + batch_size]` as drop-then-take. -/
def batched_addresses (addresses : List String) (batch_size : Nat) :
    List (List String) :=
  (pyRangeFrom 0 addresses.length batch_size).map
    (fun i => (addresses.drop i).take batch_size)

/-- `batch_geocode_addresses` from batch_search.ipynb: chunk the address
list, then run the nested loops.  `batch_size = 0` makes Python's `range`
raise ValueError, modelled as `none`; the notebook always calls this with
the default `batch_size = 200`. -/
def batch_geocode_addresses (transport : Request → Response) (api_key : String)
    (addresses : List String) (batch_size : Nat) : Option BatchOutcome :=
  if batch_size = 0 then none
  else processBatches transport api_key (batched_addresses addresses batch_size)

/-- The row formatter of `read_addresses_from_csv`:
`f"{row['Address']}, {row['City']} {row['State']} {row['Zip Code']}"`.
A missing column raises KeyError in pandas, modelled as `none`. -/
def formatAddressRow (row : List (String × String)) : Option String := do
  let street ← row.lookup "Address"
  let city ← row.lookup "City"
  let state ← row.lookup "State"
  let zipCode ← row.lookup "Zip Code"
  pure (street ++ ", " ++ city ++ " " ++ state ++ " " ++ zipCode)

/-- `read_addresses_from_csv` from batch_search.ipynb: `df.apply(..., axis=1)`
maps the formatter over the rows top to bottom, then `.tolist()`. -/
def read_addresses_from_csv : List (List (String × String)) → Option (List String)
  | [] => some []
  | row :: rest =>
    match formatAddressRow row with
    | none => none
    | some line =>
      match read_addresses_from_csv rest with
      | none => none
      | some lines => some (line :: lines)

/-- The result of `pd.DataFrame(all_results)`: column labels and cell rows.
Built from a list of uniform dicts, the columns are the dict keys in
insertion order; built from the empty list they are empty. -/
structure DataFrame where
  columns : List String
  rows : List (List Json)

/-- `pd.DataFrame(all_results)` for the row dicts appended by
`batch_geocode_addresses`.  An empty `all_results` yields a frame with
zero rows and zero columns. -/
def mkDataFrame : List Row → DataFrame
  | [] => ⟨[], []⟩
  | rows =>
    ⟨["address", "latitude", "longitude", "confidence_score", "precision_code"],
     rows.map (fun r =>
       [Json.str r.address, r.latitude, r.longitude, r.confidence_score,
        r.precision_code])⟩

/-- Rendering of one cell in the output CSV.  In this pipeline cells are
only strings (sentinels and addresses) or numbers copied from the
response; the remaining constructors never reach the sink. -/
def renderCell : Json → String
  | Json.null => ""
  | Json.bool b => if b then "True" else "False"
  | Json.num q => toString q
  | Json.str s => s
  | Json.arr _ => ""
  | Json.obj _ => ""

/-- `geocoded_data.to_csv(output_file_path, index=False)`: one header line
joining the column labels with commas, then one line per row. -/
def to_csv (df : DataFrame) : String :=
  String.intercalate "," df.columns ++ "\n" ++
    String.join (df.rows.map
      (fun r => String.intercalate "," (r.map renderCell) ++ "\n"))

/-- A response body with status-200 shape and an empty candidate list, used
as concrete test data. -/
def noMatchBody : Json := Json.obj [("addresses", Json.arr [])]

/-- A transport whose every response is status 200 with an empty candidate
list. -/
def noMatchTransport : Request → Response := fun _ => ⟨200, noMatchBody⟩

/-- First candidate of a concrete two-candidate response. -/
def candidateOne : Json :=
  Json.obj
    [("label", Json.str "5201 C ST, PHILADELPHIA, PA 19120-3608, US"),
     ("location", Json.obj
        [("representativePoint", Json.obj
           [("latitude", Json.num 40), ("longitude", Json.num (-75))])]),
     ("$metadata", Json.obj
        [("geocode", Json.obj
           [("confidence", Json.obj [("score", Json.num 1)]),
            ("precisionCode", Json.str "10")])])]

/-- Second candidate of a concrete two-candidate response, with values all
different from the first candidate's. -/
def candidateTwo : Json :=
  Json.obj
    [("label", Json.str "5201 C ST, SACRAMENTO, CA 95819-2323, US"),
     ("location", Json.obj
        [("representativePoint", Json.obj
           [("latitude", Json.num 38), ("longitude", Json.num (-121))])]),
     ("$metadata", Json.obj
        [("geocode", Json.obj
           [("confidence", Json.obj [("score", Json.num (1 / 2))]),
            ("precisionCode", Json.str "09")])])]

/-- A concrete status-200 body whose `addresses` array holds two
candidates. -/
def twoCandidateBody : Json :=
  Json.obj [("addresses", Json.arr [candidateOne, candidateTwo])]

/-- A transport that answers one particular address with a status-200 body
that has no `addresses` key at all, and every other address with a
well-formed empty-candidate body. -/
def mixedTransport : Request → Response := fun req =>
  if req.params = [("text", "200 MALFORMED WAY")] then
    ⟨200, Json.obj [("error", Json.str "oops")]⟩
  else ⟨200, noMatchBody⟩

/-- One-step unfolding of `pyRangeFrom`. -/
theorem pyRangeFrom_unfold (start stop step : Nat) :
    pyRangeFrom start stop step =
      if start < stop ∧ 1 ≤ step then
        start :: pyRangeFrom (start + step) stop step
      else [] := by
  rw [pyRangeFrom]
  simp

/-- Shifting both endpoints of a Python range shifts every index. -/
theorem pyRangeFrom_add (s c a b : Nat) :
    pyRangeFrom (a + c) (b + c) s = (pyRangeFrom a b s).map (fun x => x + c) := by
  rw [pyRangeFrom_unfold, pyRangeFrom_unfold a b s]
  by_cases hab : a < b ∧ 1 ≤ s
  · rw [if_pos hab, if_pos (show a + c < b + c ∧ 1 ≤ s by omega)]
    simp only [List.map_cons]
    congr 1
    have hrw : a + c + s = a + s + c := by omega
    rw [hrw]
    exact pyRangeFrom_add s c (a + s) b
  · rw [if_neg hab, if_neg (show ¬(a + c < b + c ∧ 1 ≤ s) by omega),
       List.map_nil]
  termination_by b - a
  decreasing_by omega

/-- With a positive batch size and a non-empty list, the chunking
comprehension peels off the first `batch_size` addresses and recurses on
the rest. -/
theorem batched_addresses_peel (l : List String) (bs : Nat) (hbs : 1 ≤ bs)
    (hl : l ≠ []) :
    batched_addresses l bs = l.take bs :: batched_addresses (l.drop bs) bs := by
  have hlen : 0 < l.length := List.length_pos.mpr hl
  unfold batched_addresses
  rw [pyRangeFrom_unfold, if_pos ⟨hlen, hbs⟩]
  simp only [List.map_cons, List.drop_zero]
  congr 1
  rw [List.length_drop]
  by_cases hbl : bs ≤ l.length
  · conv_lhs => rw [show l.length = (l.length - bs) + bs from by omega]
    rw [pyRangeFrom_add bs bs 0 (l.length - bs), List.map_map]
    apply List.map_congr_left
    intro i _
    simp only [Function.comp_apply]
    rw [List.drop_drop]
    rw [Nat.add_comm bs i]
  · have h0 : l.length - bs = 0 := by omega
    rw [h0]
    rw [pyRangeFrom_unfold, if_neg (by omega)]
    rw [pyRangeFrom_unfold, if_neg (by omega)]
    simp

/-- Chunking with a positive batch size partitions the address list:
flattening the batches gives back the input, in order. -/
theorem batched_addresses_flatten (bs : Nat) (hbs : 1 ≤ bs) :
    ∀ l : List String, (batched_addresses l bs).flatten = l
  | [] => by
    unfold batched_addresses
    rw [pyRangeFrom_unfold, if_neg (by simp)]
    rfl
  | a :: t => by
    rw [batched_addresses_peel (a :: t) bs hbs (by simp), List.flatten_cons,
        batched_addresses_flatten bs hbs ((a :: t).drop bs)]
    exact List.take_append_drop bs (a :: t)
  termination_by l => l.length
  decreasing_by
    simp only [List.length_drop, List.length_cons]
    omega

/-- Processing a concatenation of address lists one address at a time is
processing the two parts in sequence and concatenating the outcomes. -/
theorem processSequentially_append (t : Request → Response) (k : String)
    (xs ys : List String) :
    processSequentially t k (xs ++ ys) =
      match processSequentially t k xs with
      | none => none
      | some o1 =>
        match processSequentially t k ys with
        | none => none
        | some o2 => some (o1.append o2) := by
  induction xs with
  | nil =>
    simp only [List.nil_append, processSequentially]
    cases h : processSequentially t k ys with
    | none => rfl
    | some o =>
      cases o
      simp [BatchOutcome.append]
  | cons a xs ih =>
    simp only [List.cons_append, processSequentially, List.append_eq]
    cases h1 : geocodeStep (geocode_address t k a).1 a with
    | none => rfl
    | some rl =>
      rw [ih]
      cases h2 : processSequentially t k xs with
      | none => rfl
      | some o1 =>
        cases h3 : processSequentially t k ys with
        | none => rfl
        | some o2 =>
          cases o1
          cases o2
          simp [BatchOutcome.append]

/-- The nested batch loops are the sequential loop over the flattened
batches. -/
theorem processBatches_eq_flatten (t : Request → Response) (k : String)
    (bl : List (List String)) :
    processBatches t k bl = processSequentially t k bl.flatten := by
  induction bl with
  | nil => rfl
  | cons b rest ih =>
    conv_rhs => rw [List.flatten_cons, processSequentially_append]
    simp only [processBatches, ih]

/-- Batching is a no-op partition: for any positive batch size,
`batch_geocode_addresses` is the plain sequential iteration over the whole
input list. -/
theorem batch_eq_sequential (t : Request → Response) (k : String)
    (addresses : List String) (bs : Nat) (hbs : 1 ≤ bs) :
    batch_geocode_addresses t k addresses bs =
      processSequentially t k addresses := by
  unfold batch_geocode_addresses
  rw [if_neg (by omega), processBatches_eq_flatten,
      batched_addresses_flatten bs hbs]

/-- A row produced by the first-match extraction carries the input address
unchanged. -/
theorem extractFirstMatch_address (address : String) (fm : Json) (row : Row)
    (h : extractFirstMatch address fm = some row) : row.address = address := by
  unfold extractFirstMatch at h
  repeat' split at h
  all_goals first
    | exact Option.noConfusion h
    | (injection h with h2; rw [← h2])

/-- A first match with no `location` field makes the extraction raise. -/
theorem extractFirstMatch_none_location (address : String) (fm : Json)
    (h : fm.getField "location" = none) :
    extractFirstMatch address fm = none := by
  unfold extractFirstMatch
  rw [h]

/-- A first match with no `$metadata` field makes the extraction raise. -/
theorem extractFirstMatch_none_metadata (address : String) (fm : Json)
    (h : Json.getField fm "$metadata" = none) :
    extractFirstMatch address fm = none := by
  unfold extractFirstMatch
  rw [h]
  repeat' split
  all_goals first
    | rfl
    | simp_all

/-- If some address in the list makes the per-address step raise, the whole
sequential run aborts with no result. -/
theorem processSequentially_none_of_mem (t : Request → Response) (k : String)
    (a : String) (hnone : geocodeStep (t (searchRequest k a)) a = none) :
    ∀ l : List String, a ∈ l → processSequentially t k l = none := by
  intro l
  induction l with
  | nil => intro hmem; simp at hmem
  | cons b rest ih =>
    intro hmem
    simp only [processSequentially, geocode_address]
    rcases List.mem_cons.mp hmem with hba | hrest
    · subst hba
      rw [hnone]
    · cases hgs : geocodeStep (t (searchRequest k b)) b with
      | none => rfl
      | some rl => rw [ih hrest]

/-- When every address's response is handled without raising, the
sequential run returns one row per address, in input order, and row `i` is
exactly the interpretation of address `i`'s response. -/
theorem processSequentially_some (t : Request → Response) (k : String) :
    ∀ l : List String,
    (∀ a ∈ l, (geocodeStep (t (searchRequest k a)) a).isSome = true) →
    ∃ out, processSequentially t k l = some out ∧
      out.rows.length = l.length ∧
      ∀ i (h1 : i < l.length) (h2 : i < out.rows.length),
        ∃ log,
          geocodeStep (t (searchRequest k (l.get ⟨i, h1⟩))) (l.get ⟨i, h1⟩) =
            some (out.rows.get ⟨i, h2⟩, log) := by
  intro l
  induction l with
  | nil =>
    intro _
    refine ⟨⟨[], [], []⟩, rfl, rfl, ?_⟩
    intro i h1 h2
    simp at h1
  | cons b rest ih =>
    intro hall
    have hb : (geocodeStep (t (searchRequest k b)) b).isSome = true :=
      hall b (by simp)
    obtain ⟨rl, hrl⟩ := Option.isSome_iff_exists.mp hb
    obtain ⟨tail, htail, hlen, hidx⟩ := ih (fun a ha => hall a (by simp [ha]))
    refine ⟨⟨rl.1 :: tail.rows, rl.2 ++ tail.log,
             [searchRequest k b] ++ tail.requests⟩, ?_, by simp [hlen], ?_⟩
    · simp only [processSequentially, geocode_address]
      rw [hrl, htail]
    · intro i h1 h2
      cases i with
      | zero => exact ⟨rl.2, by simpa using hrl⟩
      | succ j =>
        obtain ⟨log, hlog⟩ := hidx j (by simpa using h1) (by simpa using h2)
        exact ⟨log, by simpa using hlog⟩

/-- Shape of a successful CSV read: one formatted line per input row, in
input order, each line the formatter's output for the corresponding row. -/
theorem read_csv_shape :
    ∀ (table : List (List (String × String))) (out : List String),
    read_addresses_from_csv table = some out →
    out.length = table.length ∧
      ∀ i (h1 : i < table.length) (h2 : i < out.length),
        formatAddressRow (table.get ⟨i, h1⟩) = some (out.get ⟨i, h2⟩)
  | [], out, hout => by
    simp only [read_addresses_from_csv, Option.some.injEq] at hout
    subst hout
    exact ⟨rfl, fun i h1 h2 => by simp at h1⟩
  | row :: rest, out, hout => by
    simp only [read_addresses_from_csv] at hout
    cases hfr : formatAddressRow row with
    | none => rw [hfr] at hout; exact Option.noConfusion hout
    | some line =>
      rw [hfr] at hout
      cases hrest : read_addresses_from_csv rest with
      | none => rw [hrest] at hout; exact Option.noConfusion hout
      | some lines =>
        rw [hrest] at hout
        injection hout with hout2
        subst hout2
        obtain ⟨hlen, hidx⟩ := read_csv_shape rest lines hrest
        refine ⟨by simp [hlen], ?_⟩
        intro i h1 h2
        cases i with
        | zero => simpa using hfr
        | succ j => simpa using hidx j (by simpa using h1) (by simpa using h2)

/-- C1 (amended): for every address whose geocode response has a status
code other than 200, the appended output row has latitude "Failed",
longitude equal to the literal status-code string (e.g. "Status Code:
404"), confidence_score "Failed", precision_code "Failed", and a
diagnostic line naming the address and the status code is emitted.  (The
source puts the status-code string in the longitude field, not in the
confidence_score field as the claim states.) -/
theorem c1_failed_row_fields (address : String) (response : Response)
    (h : response.status_code ≠ 200) :
    geocodeStep response address =
      some (⟨address, Json.str "Failed",
             Json.str ("Status Code: " ++ toString response.status_code),
             Json.str "Failed", Json.str "Failed"⟩,
            [failureDiagnostic address response.status_code]) := by
  have hb : (response.status_code == 200) = false := by simp [h]
  simp [geocodeStep, hb]

/-- C1 counterexample: on a 404 response the code stores the status-code
string in the longitude field and "Failed" in the confidence_score field,
so the claimed field assignment (longitude "Failed", confidence_score
"Status Code: 404") is false at this input. -/
theorem c1_counterexample :
    geocodeStep ⟨404, Json.obj [("error", Json.str "Not Found")]⟩ "5401 US" =
      some (⟨"5401 US", Json.str "Failed", Json.str "Status Code: 404",
             Json.str "Failed", Json.str "Failed"⟩,
            [failureDiagnostic "5401 US" 404]) ∧
    Json.str "Status Code: 404" ≠ Json.str "Failed" ∧
    Json.str "Failed" ≠ Json.str "Status Code: 404" := by
  refine ⟨rfl, fun hx => ?_, fun hx => ?_⟩
  · injection hx with hs
    exact absurd hs (by decide)
  · injection hx with hs
    exact absurd hs (by decide)

/-- C1 witness: the amended statement instantiated at a concrete 404
response. -/
theorem c1_witness :
    geocodeStep ⟨404, Json.obj [("error", Json.str "Not Found")]⟩
        "1600 AMPHITHEATRE PKWY" =
      some (⟨"1600 AMPHITHEATRE PKWY", Json.str "Failed",
             Json.str "Status Code: 404", Json.str "Failed",
             Json.str "Failed"⟩,
            [failureDiagnostic "1600 AMPHITHEATRE PKWY" 404]) :=
  c1_failed_row_fields "1600 AMPHITHEATRE PKWY"
    ⟨404, Json.obj [("error", Json.str "Not Found")]⟩ (by decide)

/-- C2: for every input list of N addresses whose responses are all handled
without raising, `batch_geocode_addresses` returns exactly N rows, one per
input address, in input order: row i is the interpretation of address i's
response (hence no reordering, deduplication or aggregation). -/
theorem c2_one_row_per_address (t : Request → Response) (k : String)
    (addresses : List String) (bs : Nat) (hbs : 1 ≤ bs)
    (hok : ∀ a ∈ addresses,
      (geocodeStep (t (searchRequest k a)) a).isSome = true) :
    ∃ out, batch_geocode_addresses t k addresses bs = some out ∧
      out.rows.length = addresses.length ∧
      ∀ i (h1 : i < addresses.length) (h2 : i < out.rows.length),
        ∃ log,
          geocodeStep (t (searchRequest k (addresses.get ⟨i, h1⟩)))
              (addresses.get ⟨i, h1⟩) =
            some (out.rows.get ⟨i, h2⟩, log) := by
  obtain ⟨out, hout, hlen, hidx⟩ := processSequentially_some t k addresses hok
  exact ⟨out, by rw [batch_eq_sequential t k addresses bs hbs]; exact hout,
         hlen, hidx⟩

/-- C2 witness: a concrete two-address run with the default batch size. -/
theorem c2_witness :
    ∃ out, batch_geocode_addresses noMatchTransport "key" ["A St", "B Ave"] 200 =
        some out ∧
      out.rows.length = (["A St", "B Ave"] : List String).length ∧
      ∀ i (h1 : i < (["A St", "B Ave"] : List String).length)
          (h2 : i < out.rows.length),
        ∃ log,
          geocodeStep
              (noMatchTransport
                (searchRequest "key" ((["A St", "B Ave"] : List String).get ⟨i, h1⟩)))
              ((["A St", "B Ave"] : List String).get ⟨i, h1⟩) =
            some (out.rows.get ⟨i, h2⟩, log) :=
  c2_one_row_per_address noMatchTransport "key" ["A St", "B Ave"] 200 (by omega)
    (by intro a _; rfl)

/-- C3: for every address list, every batch size at least 1 and every fixed
mapping from requests to responses, the batched driver returns exactly the
outcome of the unbatched one-address-at-a-time iteration over the whole
list: same rows, same order, same diagnostics, same requests. -/
theorem c3_batching_noop (t : Request → Response) (k : String)
    (addresses : List String) (batch_size : Nat) (hbs : 1 ≤ batch_size) :
    batch_geocode_addresses t k addresses batch_size =
      processSequentially t k addresses :=
  batch_eq_sequential t k addresses batch_size hbs

/-- C3 witness: a concrete three-address run with batch size 2, where the
chunking is non-trivial. -/
theorem c3_witness :
    batch_geocode_addresses noMatchTransport "key" ["A", "B", "C"] 2 =
      processSequentially noMatchTransport "key" ["A", "B", "C"] :=
  c3_batching_noop noMatchTransport "key" ["A", "B", "C"] 2 (by omega)

/-- C4: for every address whose response has status 200 and a non-empty
`addresses` array, the output row takes latitude and longitude from the
first element's location.representativePoint and confidence_score and
precision_code from the first element's dollar-metadata geocode object;
the remaining elements (`rest`, arbitrary here) do not influence the
row. -/
theorem c4_first_candidate_only (address : String)
    (body first_match : Json) (rest : List Json)
    (location representativePoint metadata geocode confidence : Json)
    (latitude longitude score precisionCode : Json)
    (h1 : body.getField "addresses" = some (Json.arr (first_match :: rest)))
    (h2 : first_match.getField "location" = some location)
    (h3 : location.getField "representativePoint" = some representativePoint)
    (h4 : representativePoint.getField "latitude" = some latitude)
    (h5 : representativePoint.getField "longitude" = some longitude)
    (h6 : Json.getField first_match "$metadata" = some metadata)
    (h7 : metadata.getField "geocode" = some geocode)
    (h8 : geocode.getField "confidence" = some confidence)
    (h9 : confidence.getField "score" = some score)
    (h10 : geocode.getField "precisionCode" = some precisionCode) :
    geocodeStep ⟨200, body⟩ address =
      some (⟨address, latitude, longitude, score, precisionCode⟩, []) := by
  simp [geocodeStep, extractFirstMatch, Json.truthy,
    h1, h2, h3, h4, h5, h6, h7, h8, h9, h10]

/-- C4 witness: a concrete 200 response with two candidates; the row holds
the first candidate's values, and the second candidate's differing values
appear nowhere. -/
theorem c4_witness :
    geocodeStep ⟨200, twoCandidateBody⟩ "5201 C ST, PHILADELPHIA PA 19120-3608" =
      some (⟨"5201 C ST, PHILADELPHIA PA 19120-3608", Json.num 40,
             Json.num (-75), Json.num 1, Json.str "10"⟩, []) :=
  c4_first_candidate_only "5201 C ST, PHILADELPHIA PA 19120-3608"
    twoCandidateBody candidateOne [candidateTwo] _ _ _ _ _ _ _ _ _
    rfl rfl rfl rfl rfl rfl rfl rfl rfl rfl

/-- C5: for every address whose response has status 200 and an empty
`addresses` array, the appended row has all four of latitude, longitude,
confidence_score and precision_code equal to the literal "No match". -/
theorem c5_no_match_sentinels (address : String) (body : Json)
    (h : body.getField "addresses" = some (Json.arr [])) :
    geocodeStep ⟨200, body⟩ address =
      some (⟨address, Json.str "No match", Json.str "No match",
             Json.str "No match", Json.str "No match"⟩, []) := by
  simp [geocodeStep, h, Json.truthy]

/-- C5 witness: the statement instantiated at a concrete empty-candidate
body. -/
theorem c5_witness :
    geocodeStep ⟨200, noMatchBody⟩ "NOWHERE LN" =
      some (⟨"NOWHERE LN", Json.str "No match", Json.str "No match",
             Json.str "No match", Json.str "No match"⟩, []) :=
  c5_no_match_sentinels "NOWHERE LN" noMatchBody rfl

/-- C6: if any address in the list draws a status-200 response whose body
lacks an expected JSON field (no `addresses` key, or a first match missing
`location` or dollar-metadata), the whole batch run aborts: no outcome is
returned, so rows accumulated for earlier addresses are lost and nothing
is persisted. -/
theorem c6_malformed_response_aborts (t : Request → Response) (k : String)
    (addresses : List String) (bs : Nat) (a : String) (hbs : 1 ≤ bs)
    (ha : a ∈ addresses)
    (h200 : (t (searchRequest k a)).status_code = 200)
    (hmal : (t (searchRequest k a)).body.getField "addresses" = none ∨
      ∃ fm rest,
        (t (searchRequest k a)).body.getField "addresses" =
            some (Json.arr (fm :: rest)) ∧
          (fm.getField "location" = none ∨ Json.getField fm "$metadata" = none)) :
    batch_geocode_addresses t k addresses bs = none := by
  have hstep : geocodeStep (t (searchRequest k a)) a = none := by
    rcases hmal with hnone | ⟨fm, rest, hsome, hfm⟩
    · simp [geocodeStep, h200, hnone]
    · rcases hfm with hloc | hmd
      · simp [geocodeStep, h200, hsome, Json.truthy,
          extractFirstMatch_none_location a fm hloc]
      · simp [geocodeStep, h200, hsome, Json.truthy,
          extractFirstMatch_none_metadata a fm hmd]
  rw [batch_eq_sequential t k addresses bs hbs]
  exact processSequentially_none_of_mem t k a hstep addresses ha

/-- C6 witness: a two-address run where the first address gets a
well-formed empty-candidate response and the second a 200 body with no
`addresses` key; the run returns nothing, losing the first row. -/
theorem c6_witness :
    batch_geocode_addresses mixedTransport "key"
      ["A St", "200 MALFORMED WAY"] 200 = none :=
  c6_malformed_response_aborts mixedTransport "key"
    ["A St", "200 MALFORMED WAY"] 200 "200 MALFORMED WAY" (by omega)
    (by simp) rfl (Or.inl rfl)

/-- C7: the formatter produces exactly `street ++ ", " ++ city ++ " " ++
state ++ " " ++ zipCode` for every row whose four columns are present,
with no trimming, validation or escaping; a successful read yields one
line per input row in input order; and the Philadelphia record formats to
the expected string. -/
theorem c7_formatter :
    (∀ (row : List (String × String)) (street city state zipCode : String),
        row.lookup "Address" = some street →
        row.lookup "City" = some city →
        row.lookup "State" = some state →
        row.lookup "Zip Code" = some zipCode →
        formatAddressRow row =
          some (street ++ ", " ++ city ++ " " ++ state ++ " " ++ zipCode)) ∧
    (∀ (table : List (List (String × String))) (out : List String),
        read_addresses_from_csv table = some out →
        out.length = table.length ∧
          ∀ i (h1 : i < table.length) (h2 : i < out.length),
            formatAddressRow (table.get ⟨i, h1⟩) = some (out.get ⟨i, h2⟩)) ∧
    read_addresses_from_csv
        [[("Address", "5201 C ST"), ("City", "PHILADELPHIA"), ("State", "PA"),
          ("Zip Code", "19120-3608")]] =
      some ["5201 C ST, PHILADELPHIA PA 19120-3608"] := by
  refine ⟨?_, read_csv_shape, rfl⟩
  intro row street city state zipCode h1 h2 h3 h4
  simp [formatAddressRow, h1, h2, h3, h4]

/-- C7 witness: the Philadelphia record, formatted through the first
conjunct. -/
theorem c7_witness :
    formatAddressRow
        [("Address", "5201 C ST"), ("City", "PHILADELPHIA"), ("State", "PA"),
         ("Zip Code", "19120-3608")] =
      some "5201 C ST, PHILADELPHIA PA 19120-3608" :=
  c7_formatter.1 _ "5201 C ST" "PHILADELPHIA" "PA" "19120-3608"
    rfl rfl rfl rfl

/-- C8: each client invocation issues exactly one GET request, to the
fixed base URL plus fixed endpoint path, with the address as the `text`
query parameter and the API key in the `x-api-key` header; the
autocomplete variant additionally sends `countryCode`; the request list is
a singleton whatever the transport answers, so no retry occurs. -/
theorem c8_single_fixed_get (transport : Request → Response)
    (lightbox_api_key address country_code : String) :
    geocode_address transport lightbox_api_key address =
      (transport (searchRequest lightbox_api_key address),
       [⟨"GET", "https://api.lightboxre.com/v1/addresses/search",
         [("text", address)], [("x-api-key", lightbox_api_key)]⟩]) ∧
    autocomplete_address transport lightbox_api_key address country_code =
      (transport (autocompleteRequest lightbox_api_key address country_code),
       [⟨"GET", "https://api.lightboxre.com/v1/addresses/_autocomplete",
         [("text", address), ("countryCode", country_code)],
         [("x-api-key", lightbox_api_key)]⟩]) :=
  ⟨rfl, rfl⟩

/-- C9: on the empty address list the driver issues no request and returns
an outcome with no rows, no diagnostics and no requests; the resulting
DataFrame has zero rows and zero columns, and the written CSV is a single
empty header line with no column names. -/
theorem c9_empty_input (t : Request → Response) (k : String) (bs : Nat)
    (hbs : 1 ≤ bs) :
    batch_geocode_addresses t k [] bs = some ⟨[], [], []⟩ ∧
    mkDataFrame [] = ⟨[], []⟩ ∧
    to_csv (mkDataFrame []) = "\n" := by
  refine ⟨?_, rfl, rfl⟩
  rw [batch_eq_sequential t k [] bs hbs]
  rfl

/-- C9 witness: the empty run with the default batch size 200. -/
theorem c9_witness :
    batch_geocode_addresses noMatchTransport "key" [] 200 = some ⟨[], [], []⟩ ∧
    mkDataFrame [] = ⟨[], []⟩ ∧
    to_csv (mkDataFrame []) = "\n" :=
  c9_empty_input noMatchTransport "key" 200 (by omega)

/-- C10: in all three terminal branches (matched, no match, failed) the
`address` field of the appended row is exactly the input address string;
no branch substitutes a response-derived value. -/
theorem c10_address_preserved (response : Response) (address : String)
    (row : Row) (log : List String)
    (h : geocodeStep response address = some (row, log)) :
    row.address = address := by
  unfold geocodeStep at h
  split at h
  · split at h
    · exact Option.noConfusion h
    · split at h
      · split at h
        · obtain ⟨r, hr, hrl⟩ := Option.map_eq_some'.mp h
          have ha := extractFirstMatch_address address _ r hr
          have hr2 : r = row := congrArg Prod.fst hrl
          exact hr2 ▸ ha
        · exact Option.noConfusion h
      · injection h with h2
        injection h2 with h3 h4
        rw [← h3]
  · injection h with h2
    injection h2 with h3 h4
    rw [← h3]

/-- C10 witness: the no-match branch at a concrete input keeps the input
address. -/
theorem c10_witness :
    (⟨"10 MAIN ST", Json.str "No match", Json.str "No match",
      Json.str "No match", Json.str "No match"⟩ : Row).address = "10 MAIN ST" :=
  c10_address_preserved ⟨200, noMatchBody⟩ "10 MAIN ST"
    ⟨"10 MAIN ST", Json.str "No match", Json.str "No match",
     Json.str "No match", Json.str "No match"⟩ [] rfl
